import Mathlib

/-!
Verification of the trip-planner core (src/app.py): the Prompt Builder
(`create_tasks`), the Plan Generator (`generate_trip_plan`), the Session
Controller (session-state transitions), and the generate-button handler.
The external CrewAI orchestration (`crew.kickoff()`) is modelled as an
opaque collaborator function returning either a result text or a raised
error message (`Except String String`).
-/

set_option maxRecDepth 10000

namespace TripPlanner

/-- Calendar date (year, month, day), modelling Python `datetime.date`.
Python `date` objects are always calendar-valid; comparison and
subtraction on them agree with comparison and subtraction of their
proleptic-Gregorian ordinals (`date.toordinal`), which is how we read
`end_date - start_date` and `end_date ≥ start_date` below. -/
structure Date where
  year : Nat
  month : Nat
  day : Nat
deriving DecidableEq, Repr

/-- Gregorian leap-year test, as in CPython `datetime._is_leap`. -/
def isLeap (y : Nat) : Bool :=
  (y % 4 == 0 && y % 100 != 0) || y % 400 == 0

/-- Days in the year before the first of month `m` (1-indexed), as in
CPython `datetime._days_before_month`. -/
def daysBeforeMonth (y m : Nat) : Nat :=
  [0, 31, 59, 90, 120, 151, 181, 212, 243, 273, 304, 334].getD (m - 1) 0
    + (if 2 < m ∧ isLeap y = true then 1 else 0)

/-- Proleptic Gregorian ordinal of a date, as in CPython
`date.toordinal`: January 1 of year 1 is day 1. -/
def toOrdinal (d : Date) : Nat :=
  365 * (d.year - 1) + (d.year - 1) / 4 - (d.year - 1) / 100 + (d.year - 1) / 400
    + daysBeforeMonth d.year d.month + d.day

/-- Python date subtraction: `(d2 - d1).days`. -/
def dateSubDays (d2 d1 : Date) : Int :=
  (toOrdinal d2 : Int) - (toOrdinal d1 : Int)

/-- English month name, as produced by `strftime("%B")`. -/
def monthName : Nat → String
  | 1 => "January"
  | 2 => "February"
  | 3 => "March"
  | 4 => "April"
  | 5 => "May"
  | 6 => "June"
  | 7 => "July"
  | 8 => "August"
  | 9 => "September"
  | 10 => "October"
  | 11 => "November"
  | 12 => "December"
  | _ => ""

/-- Zero-pad a number to two digits, as in `strftime("%d")`. -/
def pad2 (n : Nat) : String :=
  if n < 10 then "0" ++ toString n else toString n

/-- Zero-pad a number to four digits, as in `strftime("%Y")`. -/
def pad4 (n : Nat) : String :=
  if n < 10 then "000" ++ toString n
  else if n < 100 then "00" ++ toString n
  else if n < 1000 then "0" ++ toString n
  else toString n

/-- Python `d.strftime("%B %d, %Y")`, e.g. `June 01, 2025`. -/
def strftime_BdY (d : Date) : String :=
  monthName d.month ++ " " ++ pad2 d.day ++ ", " ++ pad4 d.year

/-- Python `sep.join(l)`. -/
def pyJoin (sep : String) : List String → String
  | [] => ""
  | [x] => x
  | x :: y :: rest => x ++ sep ++ pyJoin sep (y :: rest)

/-- A CrewAI agent as configured in `create_agents`: a static
role/goal/backstory triple (the LLM binding is external). -/
structure Agent where
  role : String
  goal : String
  backstory : String
deriving DecidableEq, Repr

/-- A CrewAI task: templated description, assigned agent, expected
output text, and the declared input-context dependency list. -/
inductive Task where
  | mk (description : String) (agent : Agent) (expected_output : String)
      (context : List Task) : Task

def Task.description : Task → String
  | .mk d _ _ _ => d

def Task.agent : Task → Agent
  | .mk _ a _ _ => a

def Task.expected_output : Task → String
  | .mk _ _ e _ => e

def Task.context : Task → List Task
  | .mk _ _ _ c => c

/-- The two agents built by `create_agents` (src/app.py lines 27-60);
the `openai_api_key` parameter only feeds the external LLM handle and
does not affect the returned role specifications. -/
def create_agents (_openai_api_key : String) : Agent × Agent :=
  (⟨"City Information Expert",
    "Provide comprehensive information about cities including attractions, culture, and local tips",
    "You are an experienced travel researcher with deep knowledge of cities worldwide. You excel at finding the most relevant and interesting information about destinations."⟩,
   ⟨"Itinerary Planner",
    "Create detailed, personalized day-by-day travel itineraries based on user preferences",
    "You are a professional travel planner with years of experience creating customized trips. You know how to balance activities, rest time, and local experiences perfectly."⟩)

/-- The derived trip duration computed at src/app.py line 76:
`(end_date - start_date).days + 1`. -/
def duration_days (start_date end_date : Date) : Int :=
  dateSubDays end_date start_date + 1

/-- Task 1 of `create_tasks` (src/app.py lines 80-93): research the
destination. -/
def research_task (city_expert : Agent) (destination : String)
    (interests : List String) (budget travel_style : String) : Task :=
  Task.mk
    ("Research " ++ destination ++ " and provide comprehensive information including:\n- Top 5 must-visit attractions related to: " ++ pyJoin ", " interests ++ "\n- Best restaurants and local cuisine specialties\n- Cultural highlights and local customs\n- Transportation options within the city\n- Weather considerations\n- Important safety tips\n\nFocus on " ++ budget ++ " budget options and " ++ travel_style ++ " travel style.\nKeep the response concise and practical.")
    city_expert
    "Detailed city information with practical travel tips in a structured format"
    []

/-- Task 2 of `create_tasks` (src/app.py lines 96-117): build the
itinerary; declares the research task as required input context. -/
def itinerary_task (itinerary_planner : Agent) (research : Task)
    (origin destination : String) (start_date end_date : Date)
    (interests : List String) (budget travel_style : String) : Task :=
  Task.mk
    ("Create a detailed " ++ toString (duration_days start_date end_date) ++ "-day itinerary for a trip from " ++ origin ++ " to " ++ destination ++ ".\n\nTrip details:\n- Dates: " ++ strftime_BdY start_date ++ " to " ++ strftime_BdY end_date ++ "\n- Interests: " ++ pyJoin ", " interests ++ "\n- Budget: " ++ budget ++ "\n- Travel style: " ++ travel_style ++ "\n\nFor each day provide:\n- Morning (9 AM - 12 PM): Activities with specific locations\n- Afternoon (12 PM - 6 PM): Activities with specific locations\n- Evening (6 PM - 10 PM): Activities and dining suggestions\n- Estimated daily cost range\n- Transportation tips between locations\n\nFormat it clearly with day numbers and time blocks.\nMake it practical, enjoyable, and realistic!")
    itinerary_planner
    "Complete day-by-day itinerary with specific activities, timings, and practical details"
    [research]

/-- The Prompt Builder, `create_tasks` (src/app.py lines 65-119):
returns the research task followed by the itinerary task. -/
def create_tasks (city_expert itinerary_planner : Agent)
    (origin destination : String) (start_date end_date : Date)
    (interests : List String) (budget travel_style : String) : List Task :=
  let rt := research_task city_expert destination interests budget travel_style
  [rt, itinerary_task itinerary_planner rt origin destination start_date end_date interests budget travel_style]

/-- A CrewAI crew: agents plus the ordered task list submitted to the
external collaborator (src/app.py lines 147-151). -/
structure Crew where
  agents : List Agent
  tasks : List Task

/-- The crew assembled inside `generate_trip_plan` (src/app.py lines
136-151): the two agents from `create_agents` and the ordered task list
from `create_tasks`. -/
def crewOf (openai_api_key origin destination : String)
    (start_date end_date : Date) (interests : List String)
    (budget travel_style : String) : Crew :=
  let agents := create_agents openai_api_key
  ⟨[agents.1, agents.2],
   create_tasks agents.1 agents.2 origin destination start_date end_date interests budget travel_style⟩

/-- The Plan Generator, `generate_trip_plan` (src/app.py lines
124-161). The external `crew.kickoff()` call is abstracted as the
`kickoff` parameter: `Except.ok r` models it returning `r`
(stringified), `Except.error e` models it raising an exception whose
message is `e`. The `try/except` becomes the `match`: an error is
converted into a returned text, never propagated. -/
def generate_trip_plan (kickoff : Crew → Except String String)
    (openai_api_key origin destination : String)
    (start_date end_date : Date) (interests : List String)
    (budget travel_style : String) : String :=
  match kickoff (crewOf openai_api_key origin destination start_date end_date interests budget travel_style) with
  | .ok result => result
  | .error e =>
      "Error generating trip plan: " ++ e ++ "\n\nPlease check your OpenAI API key and try again."

/-- Streamlit session state: `st.session_state.trip_plan` (None or a
plan text) and `st.session_state.generating` (src/app.py lines 19-22). -/
structure SessionState where
  trip_plan : Option String
  generating : Bool
deriving DecidableEq, Repr

/-- Session Controller `beginGeneration()`: src/app.py line 268,
`st.session_state.generating = True`. -/
def beginGeneration (s : SessionState) : SessionState :=
  { s with generating := true }

/-- Session Controller `completeGeneration(r)`: src/app.py lines
280-281, `st.session_state.trip_plan = result;
st.session_state.generating = False`. -/
def completeGeneration (s : SessionState) (r : String) : SessionState :=
  { s with trip_plan := some r, generating := false }

/-- Session Controller `clear()`: src/app.py line 328,
`st.session_state.trip_plan = None` (the Generate New Plan button). -/
def clear (s : SessionState) : SessionState :=
  { s with trip_plan := none }

/-- Outcome of one firing of the generate-button handler: the session
state afterwards, the validation error shown (if any), and whether the
core `generate_trip_plan` was invoked. -/
structure HandlerResult where
  state : SessionState
  error_shown : Option String
  core_invoked : Bool
deriving DecidableEq, Repr

/-- The generate-button handler (src/app.py lines 260-281). Python
truthiness of the strings and the list is modelled as emptiness tests.
On valid input it runs `beginGeneration`, calls the core, then runs
`completeGeneration` with the result. -/
def generate_button_handler (kickoff : Crew → Except String String)
    (openai_api_key origin destination : String)
    (start_date end_date : Date) (interests : List String)
    (budget travel_style : String) (s : SessionState) : HandlerResult :=
  if openai_api_key = "" then
    HandlerResult.mk s (some "⚠️ Please enter your OpenAI API key in the sidebar.") false
  else if origin = "" ∨ destination = "" then
    HandlerResult.mk s (some "⚠️ Please enter both origin and destination cities.") false
  else if interests = [] then
    HandlerResult.mk s (some "⚠️ Please select at least one interest.") false
  else
    let s1 := beginGeneration s
    let result := generate_trip_plan kickoff openai_api_key origin destination start_date end_date interests budget travel_style
    HandlerResult.mk (completeGeneration s1 result) none true

/-- String containment: `pat` occurs contiguously inside `s` (Python
`pat in s`). -/
abbrev strContains (s pat : String) : Prop :=
  pat.data <:+: s.data

/-- A default task used as the fallback of list indexing. -/
def emptyTask : Task :=
  Task.mk "" ⟨"", "", ""⟩ "" []

theorem strContains_refl (p : String) : strContains p p :=
  List.infix_rfl

theorem strContains_appendL (s t p : String) (h : strContains s p) :
    strContains (s ++ t) p :=
  h.trans ⟨[], t.data, by simp [String.data_append]⟩

theorem strContains_appendR (s t p : String) (h : strContains t p) :
    strContains (s ++ t) p :=
  h.trans ⟨s.data, [], by simp [String.data_append]⟩

/-- Every element of a joined list occurs in the join. -/
theorem strContains_pyJoin (sep x : String) (l : List String) (hx : x ∈ l) :
    strContains (pyJoin sep l) x := by
  induction l with
  | nil => cases hx
  | cons y ys ih =>
    cases ys with
    | nil =>
      rcases List.mem_singleton.mp hx with rfl
      exact strContains_refl x
    | cons z zs =>
      rcases List.mem_cons.mp hx with rfl | hmem
      · exact strContains_appendL _ _ _ (strContains_appendL _ _ _ (strContains_refl x))
      · exact strContains_appendR _ _ _ (ih hmem)

/-- Containment follows from an explicit decomposition of the string. -/
theorem strContains_of_eq (s a p b : String) (hs : a ++ (p ++ b) = s) :
    strContains s p := by
  subst hs
  exact strContains_appendR _ _ _ (strContains_appendL _ _ _ (strContains_refl p))

/-- C1: corrected form. `generate_trip_plan` never raises: when the
external collaborator raises an error `e`, the returned value is a text
containing `e` and the remediation hint actually present in the code,
"check your OpenAI API key and try again" (the spec's quoted phrase
"check your credential and retry" does not occur verbatim). -/
theorem claim_C1_error_wrapped (kickoff : Crew → Except String String)
    (openai_api_key origin destination : String) (start_date end_date : Date)
    (interests : List String) (budget travel_style : String) (e : String)
    (h : kickoff (crewOf openai_api_key origin destination start_date end_date interests budget travel_style)
          = Except.error e) :
    generate_trip_plan kickoff openai_api_key origin destination start_date end_date interests budget travel_style
        = "Error generating trip plan: " ++ e ++ "\n\nPlease check your OpenAI API key and try again."
    ∧ strContains (generate_trip_plan kickoff openai_api_key origin destination start_date end_date interests budget travel_style) e
    ∧ strContains (generate_trip_plan kickoff openai_api_key origin destination start_date end_date interests budget travel_style)
        "check your OpenAI API key and try again" := by
  have heq : generate_trip_plan kickoff openai_api_key origin destination start_date end_date interests budget travel_style
      = "Error generating trip plan: " ++ e ++ "\n\nPlease check your OpenAI API key and try again." := by
    unfold generate_trip_plan
    rw [h]
  refine ⟨heq, ?_, ?_⟩
  · rw [heq]
    exact strContains_appendL _ _ _ (strContains_appendR _ _ _ (strContains_refl e))
  · rw [heq]
    exact strContains_appendR _ _ _ (by decide)

/-- Counterexample to C1 as stated: the collaborator raises
"rate limit"; the returned text does not contain the spec's quoted
remediation phrase "check your credential and retry". -/
theorem claim_C1_counterexample :
    ¬ strContains (generate_trip_plan (fun _ => Except.error "rate limit") "k" "New York" "Paris"
        ⟨2025, 6, 1⟩ ⟨2025, 6, 5⟩ ["Food & Dining"] "Moderate" "Balanced")
      "check your credential and retry" := by
  decide

/-- Witness for the corrected C1 at a collaborator raising "rate limit". -/
theorem claim_C1_error_wrapped_witness :
    ((fun _ => Except.error "rate limit" : Crew → Except String String)
        (crewOf "k" "New York" "Paris" ⟨2025, 6, 1⟩ ⟨2025, 6, 5⟩ ["Food & Dining"] "Moderate" "Balanced")
      = Except.error "rate limit")
    ∧ (generate_trip_plan (fun _ => Except.error "rate limit") "k" "New York" "Paris"
          ⟨2025, 6, 1⟩ ⟨2025, 6, 5⟩ ["Food & Dining"] "Moderate" "Balanced"
        = "Error generating trip plan: " ++ "rate limit" ++ "\n\nPlease check your OpenAI API key and try again."
      ∧ strContains (generate_trip_plan (fun _ => Except.error "rate limit") "k" "New York" "Paris"
          ⟨2025, 6, 1⟩ ⟨2025, 6, 5⟩ ["Food & Dining"] "Moderate" "Balanced") "rate limit"
      ∧ strContains (generate_trip_plan (fun _ => Except.error "rate limit") "k" "New York" "Paris"
          ⟨2025, 6, 1⟩ ⟨2025, 6, 5⟩ ["Food & Dining"] "Moderate" "Balanced")
          "check your OpenAI API key and try again") :=
  ⟨rfl,
   claim_C1_error_wrapped (fun _ => Except.error "rate limit") "k" "New York" "Paris"
     ⟨2025, 6, 1⟩ ⟨2025, 6, 5⟩ ["Food & Dining"] "Moderate" "Balanced" "rate limit" rfl⟩

/-- C2: for every valid Trip Request (end_date ≥ start_date, read on the
date ordinals, which is how Python compares and subtracts dates), the
derived `duration_days` equals the whole-day difference plus 1 and is at
least 1. -/
theorem claim_C2_duration_days (start_date end_date : Date)
    (h : toOrdinal start_date ≤ toOrdinal end_date) :
    duration_days start_date end_date
        = ((toOrdinal end_date : Int) - (toOrdinal start_date : Int)) + 1
      ∧ 1 ≤ duration_days start_date end_date := by
  refine ⟨rfl, ?_⟩
  unfold duration_days dateSubDays
  omega

/-- Witness for C2 at the concrete dates 2025-06-01 and 2025-06-05. -/
theorem claim_C2_duration_days_witness :
    toOrdinal ⟨2025, 6, 1⟩ ≤ toOrdinal ⟨2025, 6, 5⟩
    ∧ (duration_days ⟨2025, 6, 1⟩ ⟨2025, 6, 5⟩
          = ((toOrdinal ⟨2025, 6, 5⟩ : Int) - (toOrdinal ⟨2025, 6, 1⟩ : Int)) + 1
        ∧ 1 ≤ duration_days ⟨2025, 6, 1⟩ ⟨2025, 6, 5⟩) :=
  ⟨by decide, claim_C2_duration_days ⟨2025, 6, 1⟩ ⟨2025, 6, 5⟩ (by decide)⟩

/-- C4: Session Controller transitions, from any session state: after
`beginGeneration` the generating flag is true; after
`completeGeneration r` the stored plan is `r` and generating is false;
after `clear` the plan is cleared while generating is unchanged; and
clearing when the plan is already absent leaves it absent. -/
theorem claim_C4_session_controller (s : SessionState) (r : String) :
    (beginGeneration s).generating = true
    ∧ (completeGeneration s r).trip_plan = some r
    ∧ (completeGeneration s r).generating = false
    ∧ (clear s).trip_plan = none
    ∧ (clear s).generating = s.generating
    ∧ (clear ⟨none, s.generating⟩).trip_plan = none :=
  ⟨rfl, rfl, rfl, rfl, rfl, rfl⟩

/-- C5: the Prompt Builder is deterministic: two runs of `create_tasks`
on componentwise identical inputs (agents, origin, destination, dates,
interests sequence, budget, travel style) produce identical task lists;
the embedding is a pure function with no randomness or external calls. -/
theorem claim_C5_deterministic (ce₁ ce₂ ip₁ ip₂ : Agent)
    (o₁ o₂ d₁ d₂ : String) (sd₁ sd₂ ed₁ ed₂ : Date)
    (ints₁ ints₂ : List String) (b₁ b₂ ts₁ ts₂ : String)
    (hce : ce₁ = ce₂) (hip : ip₁ = ip₂) (ho : o₁ = o₂) (hd : d₁ = d₂)
    (hsd : sd₁ = sd₂) (hed : ed₁ = ed₂) (hints : ints₁ = ints₂)
    (hb : b₁ = b₂) (hts : ts₁ = ts₂) :
    create_tasks ce₁ ip₁ o₁ d₁ sd₁ ed₁ ints₁ b₁ ts₁
      = create_tasks ce₂ ip₂ o₂ d₂ sd₂ ed₂ ints₂ b₂ ts₂ := by
  subst_vars; rfl

/-- Witness for C5 at a concrete Trip Request. -/
theorem claim_C5_deterministic_witness :
    create_tasks (create_agents "k").1 (create_agents "k").2 "New York" "Paris"
        ⟨2025, 6, 1⟩ ⟨2025, 6, 5⟩ ["Food & Dining"] "Moderate" "Balanced"
      = create_tasks (create_agents "k").1 (create_agents "k").2 "New York" "Paris"
        ⟨2025, 6, 1⟩ ⟨2025, 6, 5⟩ ["Food & Dining"] "Moderate" "Balanced" :=
  claim_C5_deterministic _ _ _ _ _ _ _ _ _ _ _ _ _ _ _ _ _ _
    rfl rfl rfl rfl rfl rfl rfl rfl rfl

/-- C6: the Prompt Builder returns the research task strictly before the
itinerary task, the itinerary task declares the research task as its
required input context, and the research task declares no dependency. -/
theorem claim_C6_task_ordering (ce ip : Agent) (origin destination : String)
    (start_date end_date : Date) (interests : List String)
    (budget travel_style : String) :
    create_tasks ce ip origin destination start_date end_date interests budget travel_style
        = [research_task ce destination interests budget travel_style,
           itinerary_task ip (research_task ce destination interests budget travel_style)
             origin destination start_date end_date interests budget travel_style]
    ∧ ((create_tasks ce ip origin destination start_date end_date interests budget travel_style).getD 1 emptyTask).context
        = [(create_tasks ce ip origin destination start_date end_date interests budget travel_style).getD 0 emptyTask]
    ∧ ((create_tasks ce ip origin destination start_date end_date interests budget travel_style).getD 0 emptyTask).context
        = [] :=
  ⟨rfl, rfl, rfl⟩

/-- C7: whenever the generate button fires with a missing credential, a
missing origin or destination, or no interests selected, the handler
shows a validation error and never invokes `generate_trip_plan`. -/
theorem claim_C7_validation_blocks_core (kickoff : Crew → Except String String)
    (openai_api_key origin destination : String) (start_date end_date : Date)
    (interests : List String) (budget travel_style : String) (s : SessionState)
    (h : openai_api_key = "" ∨ origin = "" ∨ destination = "" ∨ interests = []) :
    (generate_button_handler kickoff openai_api_key origin destination
        start_date end_date interests budget travel_style s).core_invoked = false
    ∧ ((generate_button_handler kickoff openai_api_key origin destination
        start_date end_date interests budget travel_style s).error_shown).isSome = true := by
  unfold generate_button_handler
  split_ifs <;> simp_all

/-- Witness for C7: a click with the credential missing. -/
theorem claim_C7_validation_blocks_core_witness :
    ((" " : String) = "" ∨ ("" : String) = "" ∨ ("Paris" : String) = "" ∨ (["Food & Dining"] : List String) = [])
    ∧ ((generate_button_handler (fun _ => Except.ok "plan") " " "" "Paris"
          ⟨2025, 6, 1⟩ ⟨2025, 6, 5⟩ ["Food & Dining"] "Moderate" "Balanced"
          ⟨none, false⟩).core_invoked = false
      ∧ ((generate_button_handler (fun _ => Except.ok "plan") " " "" "Paris"
          ⟨2025, 6, 1⟩ ⟨2025, 6, 5⟩ ["Food & Dining"] "Moderate" "Balanced"
          ⟨none, false⟩).error_shown).isSome = true) :=
  ⟨Or.inr (Or.inl rfl),
   claim_C7_validation_blocks_core (fun _ => Except.ok "plan") " " "" "Paris"
     ⟨2025, 6, 1⟩ ⟨2025, 6, 5⟩ ["Food & Dining"] "Moderate" "Balanced"
     ⟨none, false⟩ (Or.inr (Or.inl rfl))⟩

/-- C3: for every Trip Request, the itinerary task description produced
by the Prompt Builder contains the rendered duration_days, the
formatted start and end dates, and every selected interest label as a
substring. -/
theorem claim_C3_itinerary_description_complete (ce ip : Agent)
    (origin destination : String) (start_date end_date : Date)
    (interests : List String) (budget travel_style : String)
    (x : String) (hx : x ∈ interests) :
    strContains (((create_tasks ce ip origin destination start_date end_date interests budget travel_style).getD 1 emptyTask).description)
        (toString (duration_days start_date end_date))
    ∧ strContains (((create_tasks ce ip origin destination start_date end_date interests budget travel_style).getD 1 emptyTask).description)
        (strftime_BdY start_date)
    ∧ strContains (((create_tasks ce ip origin destination start_date end_date interests budget travel_style).getD 1 emptyTask).description)
        (strftime_BdY end_date)
    ∧ strContains (((create_tasks ce ip origin destination start_date end_date interests budget travel_style).getD 1 emptyTask).description)
        x := by
  refine ⟨?_, ?_, ?_, ?_⟩ <;>
    simp only [create_tasks, itinerary_task, Task.description, List.getD,
      List.getElem?_cons_succ, List.getElem?_cons_zero, Option.getD_some]
  · iterate 15 apply strContains_appendL
    apply strContains_appendR
    exact strContains_refl _
  · iterate 9 apply strContains_appendL
    apply strContains_appendR
    exact strContains_refl _
  · iterate 7 apply strContains_appendL
    apply strContains_appendR
    exact strContains_refl _
  · iterate 5 apply strContains_appendL
    apply strContains_appendR
    exact strContains_pyJoin _ _ _ hx

/-- Witness for C3 at the documented concrete scenario. -/
theorem claim_C3_itinerary_description_complete_witness :
    ("Food & Dining" ∈ (["Food & Dining"] : List String))
    ∧ (strContains (((create_tasks (create_agents "k").1 (create_agents "k").2 "New York" "Paris" ⟨2025, 6, 1⟩ ⟨2025, 6, 5⟩ ["Food & Dining"] "Moderate" "Balanced").getD 1 emptyTask).description)
          (toString (duration_days ⟨2025, 6, 1⟩ ⟨2025, 6, 5⟩))
      ∧ strContains (((create_tasks (create_agents "k").1 (create_agents "k").2 "New York" "Paris" ⟨2025, 6, 1⟩ ⟨2025, 6, 5⟩ ["Food & Dining"] "Moderate" "Balanced").getD 1 emptyTask).description)
          (strftime_BdY ⟨2025, 6, 1⟩)
      ∧ strContains (((create_tasks (create_agents "k").1 (create_agents "k").2 "New York" "Paris" ⟨2025, 6, 1⟩ ⟨2025, 6, 5⟩ ["Food & Dining"] "Moderate" "Balanced").getD 1 emptyTask).description)
          (strftime_BdY ⟨2025, 6, 5⟩)
      ∧ strContains (((create_tasks (create_agents "k").1 (create_agents "k").2 "New York" "Paris" ⟨2025, 6, 1⟩ ⟨2025, 6, 5⟩ ["Food & Dining"] "Moderate" "Balanced").getD 1 emptyTask).description)
          "Food & Dining") :=
  ⟨List.mem_singleton.mpr rfl,
   claim_C3_itinerary_description_complete (create_agents "k").1 (create_agents "k").2
     "New York" "Paris" ⟨2025, 6, 1⟩ ⟨2025, 6, 5⟩ ["Food & Dining"] "Moderate" "Balanced"
     "Food & Dining" (List.mem_singleton.mpr rfl)⟩

/-- C9: the Prompt Builder is total on reversed date pairs: with
end_date strictly before start_date it still returns its two task
specifications, the computed duration is non-positive, and the rendered
duration together with the "-day" suffix appears verbatim in the
itinerary description. -/
theorem claim_C9_total_on_reversed_dates (ce ip : Agent)
    (origin destination : String) (start_date end_date : Date)
    (interests : List String) (budget travel_style : String)
    (h : toOrdinal end_date < toOrdinal start_date) :
    (create_tasks ce ip origin destination start_date end_date interests budget travel_style).length = 2
    ∧ duration_days start_date end_date ≤ 0
    ∧ strContains (((create_tasks ce ip origin destination start_date end_date interests budget travel_style).getD 1 emptyTask).description)
        (toString (duration_days start_date end_date) ++ "-day") := by
  refine ⟨rfl, ?_, ?_⟩
  · unfold duration_days dateSubDays
    omega
  · simp only [create_tasks, itinerary_task, Task.description, List.getD,
      List.getElem?_cons_succ, List.getElem?_cons_zero, Option.getD_some]
    iterate 14 apply strContains_appendL
    have lit : ("-day" : String) ++ " itinerary for a trip from " = "-day itinerary for a trip from " := by
      decide
    refine strContains_of_eq _ "Create a detailed " _ " itinerary for a trip from " ?_
    simp only [String.append_assoc, lit]

/-- Witness for C9: end date four days before the start date. -/
theorem claim_C9_total_on_reversed_dates_witness :
    toOrdinal ⟨2025, 6, 1⟩ < toOrdinal ⟨2025, 6, 5⟩
    ∧ ((create_tasks (create_agents "k").1 (create_agents "k").2 "New York" "Paris" ⟨2025, 6, 5⟩ ⟨2025, 6, 1⟩ ["Food & Dining"] "Moderate" "Balanced").length = 2
      ∧ duration_days ⟨2025, 6, 5⟩ ⟨2025, 6, 1⟩ ≤ 0
      ∧ strContains (((create_tasks (create_agents "k").1 (create_agents "k").2 "New York" "Paris" ⟨2025, 6, 5⟩ ⟨2025, 6, 1⟩ ["Food & Dining"] "Moderate" "Balanced").getD 1 emptyTask).description)
          (toString (duration_days ⟨2025, 6, 5⟩ ⟨2025, 6, 1⟩) ++ "-day")) :=
  ⟨by decide,
   claim_C9_total_on_reversed_dates (create_agents "k").1 (create_agents "k").2
     "New York" "Paris" ⟨2025, 6, 5⟩ ⟨2025, 6, 1⟩ ["Food & Dining"] "Moderate" "Balanced"
     (by decide)⟩

/-- The task list of the documented concrete scenario: New York to
Paris, 2025-06-01 to 2025-06-05, one interest, moderate budget,
balanced style. -/
def scenarioTasks : List Task :=
  create_tasks (create_agents "k").1 (create_agents "k").2 "New York" "Paris"
    ⟨2025, 6, 1⟩ ⟨2025, 6, 5⟩ ["Food & Dining"] "Moderate" "Balanced"

/-- C8: on the documented scenario the duration is 5 days and the
itinerary task description contains the seven expected substrings. -/
theorem claim_C8_scenario :
    duration_days ⟨2025, 6, 1⟩ ⟨2025, 6, 5⟩ = 5
    ∧ strContains ((scenarioTasks.getD 1 emptyTask).description) "5-day"
    ∧ strContains ((scenarioTasks.getD 1 emptyTask).description) "New York to Paris"
    ∧ strContains ((scenarioTasks.getD 1 emptyTask).description) "June 01, 2025"
    ∧ strContains ((scenarioTasks.getD 1 emptyTask).description) "June 05, 2025"
    ∧ strContains ((scenarioTasks.getD 1 emptyTask).description) "Food & Dining"
    ∧ strContains ((scenarioTasks.getD 1 emptyTask).description) "Moderate"
    ∧ strContains ((scenarioTasks.getD 1 emptyTask).description) "Balanced" := by
  decide

/-- Helper: when the collaborator raises, the wrapped error text
returned by `generate_trip_plan` is never the empty string. -/
theorem generate_trip_plan_error_ne_empty (kickoff : Crew → Except String String)
    (openai_api_key origin destination : String) (start_date end_date : Date)
    (interests : List String) (budget travel_style : String) (e : String)
    (h : kickoff (crewOf openai_api_key origin destination start_date end_date interests budget travel_style)
          = Except.error e) :
    generate_trip_plan kickoff openai_api_key origin destination start_date end_date interests budget travel_style ≠ "" := by
  unfold generate_trip_plan
  rw [h]
  intro contra
  have h2 := congrArg String.data contra
  simp only [String.data_append] at h2
  exact absurd (List.append_eq_nil.mp (List.append_eq_nil.mp h2).1).1 (by decide)

/-- C10: corrected form. After every button-triggered generation (valid
input, so the core runs), the session ends with generating = false and
trip_plan holding exactly the text returned by `generate_trip_plan` —
in particular a collaborator failure cannot leave generating = true,
and when the collaborator raises, the stored text is non-empty. The
unconditional non-emptiness of the stored text fails: the collaborator
may return an empty result string. -/
theorem claim_C10_handler_invariant (kickoff : Crew → Except String String)
    (openai_api_key origin destination : String) (start_date end_date : Date)
    (interests : List String) (budget travel_style : String) (s : SessionState)
    (hk : openai_api_key ≠ "") (ho : origin ≠ "") (hd : destination ≠ "")
    (hi : interests ≠ []) :
    (generate_button_handler kickoff openai_api_key origin destination
        start_date end_date interests budget travel_style s).state.generating = false
    ∧ (generate_button_handler kickoff openai_api_key origin destination
        start_date end_date interests budget travel_style s).state.trip_plan
        = some (generate_trip_plan kickoff openai_api_key origin destination
            start_date end_date interests budget travel_style)
    ∧ ∀ e, kickoff (crewOf openai_api_key origin destination start_date end_date interests budget travel_style)
          = Except.error e →
        generate_trip_plan kickoff openai_api_key origin destination
            start_date end_date interests budget travel_style ≠ "" := by
  unfold generate_button_handler
  rw [if_neg hk, if_neg (not_or.mpr ⟨ho, hd⟩), if_neg hi]
  exact ⟨rfl, rfl, fun e he =>
    generate_trip_plan_error_ne_empty kickoff openai_api_key origin destination
      start_date end_date interests budget travel_style e he⟩

/-- Counterexample to C10 as stated: when the collaborator returns an
empty result, the generation completes (core invoked, generating back
to false) but the stored trip_plan text is empty, refuting the claimed
non-emptiness. -/
theorem claim_C10_counterexample :
    (generate_button_handler (fun _ => Except.ok "") "k" "New York" "Paris"
        ⟨2025, 6, 1⟩ ⟨2025, 6, 5⟩ ["Food & Dining"] "Moderate" "Balanced"
        ⟨none, false⟩).core_invoked = true
    ∧ generate_trip_plan (fun _ => Except.ok "") "k" "New York" "Paris"
        ⟨2025, 6, 1⟩ ⟨2025, 6, 5⟩ ["Food & Dining"] "Moderate" "Balanced" = ""
    ∧ (generate_button_handler (fun _ => Except.ok "") "k" "New York" "Paris"
        ⟨2025, 6, 1⟩ ⟨2025, 6, 5⟩ ["Food & Dining"] "Moderate" "Balanced"
        ⟨none, false⟩).state.trip_plan = some ""
    ∧ (generate_button_handler (fun _ => Except.ok "") "k" "New York" "Paris"
        ⟨2025, 6, 1⟩ ⟨2025, 6, 5⟩ ["Food & Dining"] "Moderate" "Balanced"
        ⟨none, false⟩).state.generating = false := by
  decide

/-- Witness for the corrected C10 at a collaborator raising "rate limit". -/
theorem claim_C10_handler_invariant_witness :
    (generate_button_handler (fun _ => Except.error "rate limit") "k" "New York" "Paris"
        ⟨2025, 6, 1⟩ ⟨2025, 6, 5⟩ ["Food & Dining"] "Moderate" "Balanced"
        ⟨none, false⟩).state.generating = false
    ∧ (generate_button_handler (fun _ => Except.error "rate limit") "k" "New York" "Paris"
        ⟨2025, 6, 1⟩ ⟨2025, 6, 5⟩ ["Food & Dining"] "Moderate" "Balanced"
        ⟨none, false⟩).state.trip_plan
        = some (generate_trip_plan (fun _ => Except.error "rate limit") "k" "New York" "Paris"
            ⟨2025, 6, 1⟩ ⟨2025, 6, 5⟩ ["Food & Dining"] "Moderate" "Balanced")
    ∧ generate_trip_plan (fun _ => Except.error "rate limit") "k" "New York" "Paris"
        ⟨2025, 6, 1⟩ ⟨2025, 6, 5⟩ ["Food & Dining"] "Moderate" "Balanced" ≠ "" :=
  ⟨(claim_C10_handler_invariant (fun _ => Except.error "rate limit") "k" "New York" "Paris"
      ⟨2025, 6, 1⟩ ⟨2025, 6, 5⟩ ["Food & Dining"] "Moderate" "Balanced" ⟨none, false⟩
      (by decide) (by decide) (by decide) (by decide)).1,
   (claim_C10_handler_invariant (fun _ => Except.error "rate limit") "k" "New York" "Paris"
      ⟨2025, 6, 1⟩ ⟨2025, 6, 5⟩ ["Food & Dining"] "Moderate" "Balanced" ⟨none, false⟩
      (by decide) (by decide) (by decide) (by decide)).2.1,
   (claim_C10_handler_invariant (fun _ => Except.error "rate limit") "k" "New York" "Paris"
      ⟨2025, 6, 1⟩ ⟨2025, 6, 5⟩ ["Food & Dining"] "Moderate" "Balanced" ⟨none, false⟩
      (by decide) (by decide) (by decide) (by decide)).2.2 "rate limit" rfl⟩

end TripPlanner
